import Mathlib

/-!
Verification of the identifier-generation and config-merge logic of
`cursor_machine_id.py`. The Python source is shallowly embedded: pure
functions become Lean functions, the random source (`os.urandom`,
`random.randint`, `random.choices`, `uuid.uuid4`) is threaded explicitly as
input data, the file system is an explicit association-list state, and
Python exceptions become explicit error values.
-/

namespace CursorMachineId

/-! ## JSON values (the shape `json.load` / `json.dump` work with) -/

/-- A parsed JSON value, as produced by Python's `json.load`. -/
inductive JValue where
  | jnull
  | jbool (b : Bool)
  | jnum (n : Int)
  | jstr (s : String)
  | jarr (elems : List JValue)
  | jobj (fields : List (String × JValue))

/-- Python truthiness of a JSON value (used by `if old_config.telemetry_sqm_id:`). -/
def jTruthy : JValue → Bool
  | .jnull => false
  | .jbool b => b
  | .jnum n => n != 0
  | .jstr s => s != ""
  | .jarr l => !l.isEmpty
  | .jobj l => !l.isEmpty

/-! ## Hexadecimal and UTF-8 encoding (`bytes.hex()`, `str.encode()`) -/

/-- The sixteen lowercase hexadecimal digit characters. -/
def hexCharsL : List Char := "0123456789abcdef".data

/-- The lowercase hex digit for a nibble. -/
def hexChar (n : Nat) : Char := hexCharsL.getD (n % 16) '0'

/-- The two lowercase hex digits of one byte (Python's `%02x` per byte). -/
def toHex2 (b : Nat) : List Char := [hexChar (b / 16), hexChar (b % 16)]

/-- Lowercase hex rendering of a byte sequence (Python's `bytes.hex()` /
`hashlib`'s `hexdigest()`). -/
def hexEncode : List Nat → List Char
  | [] => []
  | b :: bs => toHex2 b ++ hexEncode bs

/-- UTF-8 encoding of one character (Python's `str.encode()`, per character). -/
def utf8Bytes (c : Char) : List Nat :=
  let n := c.toNat
  if n < 128 then [n]
  else if n < 2048 then [192 ||| (n >>> 6), 128 ||| (n &&& 63)]
  else if n < 65536 then
    [224 ||| (n >>> 12), 128 ||| ((n >>> 6) &&& 63), 128 ||| (n &&& 63)]
  else
    [240 ||| (n >>> 18), 128 ||| ((n >>> 12) &&& 63),
      128 ||| ((n >>> 6) &&& 63), 128 ||| (n &&& 63)]

/-- UTF-8 encoding of a character sequence (Python's `str.encode()`). -/
def utf8Encode : List Char → List Nat
  | [] => []
  | c :: cs => utf8Bytes c ++ utf8Encode cs

/-- The value of one lowercase hex digit character, if it is one. -/
def hexVal (c : Char) : Option Nat := hexCharsL.indexOf? c

/-- Decode a lowercase-hex character sequence to bytes and then to the ASCII
string those bytes spell; `none` when the input is not well-formed hex of an
ASCII string. This is the reading direction of `bytes.fromhex(..).decode()`
for the ASCII output of `generate_machine_id`. -/
def hexDecodeAscii : List Char → Option (List Char)
  | [] => some []
  | c1 :: c2 :: rest => do
      let hi ← hexVal c1
      let lo ← hexVal c2
      let b := 16 * hi + lo
      if b < 128 then
        let tail ← hexDecodeAscii rest
        pure (Char.ofNat b :: tail)
      else none
  | [_] => none

/-! ## SHA-256 (`hashlib.sha256`), over `Nat` with explicit `% 2^32` -/

/-- Truncate to a 32-bit word. -/
def w32 (n : Nat) : Nat := n % 4294967296

/-- Right rotation of a 32-bit word. -/
def rotr (n x : Nat) : Nat := w32 ((x >>> n) ||| (x <<< (32 - n)))

def bigSigma0 (x : Nat) : Nat := rotr 2 x ^^^ rotr 13 x ^^^ rotr 22 x
def bigSigma1 (x : Nat) : Nat := rotr 6 x ^^^ rotr 11 x ^^^ rotr 25 x
def smallSigma0 (x : Nat) : Nat := rotr 7 x ^^^ rotr 18 x ^^^ (x >>> 3)
def smallSigma1 (x : Nat) : Nat := rotr 17 x ^^^ rotr 19 x ^^^ (x >>> 10)

/-- SHA-256 choice function; `x ^^^ 0xFFFFFFFF` is 32-bit complement. -/
def chV (x y z : Nat) : Nat := (x &&& y) ^^^ ((x ^^^ 4294967295) &&& z)

/-- SHA-256 majority function. -/
def majV (x y z : Nat) : Nat := (x &&& y) ^^^ (x &&& z) ^^^ (y &&& z)

/-- The eight 32-bit words of a SHA-256 state. -/
structure H8 where
  a : Nat
  b : Nat
  c : Nat
  d : Nat
  e : Nat
  f : Nat
  g : Nat
  h : Nat

/-- SHA-256 initial state. -/
def initH : H8 :=
  ⟨1779033703, 3144134277, 1013904242, 2773480762,
   1359893119, 2600822924, 528734635, 1541459225⟩

/-- The 64 SHA-256 round constants, written in decimal. -/
def K256 : List Nat :=
  [1116352408, 1899447441, 3049323471, 3921009573, 961987163, 1508970993,
   2453635748, 2870763221, 3624381080, 310598401, 607225278, 1426881987,
   1925078388, 2162078206, 2614888103, 3248222580, 3835390401, 4022224774,
   264347078, 604807628, 770255983, 1249150122, 1555081692, 1996064986,
   2554220882, 2821834349, 2952996808, 3210313671, 3336571891, 3584528711,
   113926993, 338241895, 666307205, 773529912, 1294757372, 1396182291,
   1695183700, 1986661051, 2177026350, 2456956037, 2730485921, 2820302411,
   3259730800, 3345764771, 3516065817, 3600352804, 4094571909, 275423344,
   430227734, 506948616, 659060556, 883997877, 958139571, 1322822218,
   1537002063, 1747873779, 1955562222, 2024104815, 2227730452, 2361852424,
   2428436474, 2756734187, 3204031479, 3329325298]

/-- Group bytes into big-endian 32-bit words. -/
def toWords : List Nat → List Nat
  | b0 :: b1 :: b2 :: b3 :: rest =>
      w32 ((b0 <<< 24) ||| (b1 <<< 16) ||| (b2 <<< 8) ||| b3) :: toWords rest
  | _ => []

/-- Extend the 16-word message schedule by `fuel` further words. -/
def extendSchedule : Nat → List Nat → List Nat
  | 0, ws => ws
  | fuel + 1, ws =>
      let t := ws.length
      let wNew := w32 (smallSigma1 (ws.getD (t - 2) 0) + ws.getD (t - 7) 0 +
        smallSigma0 (ws.getD (t - 15) 0) + ws.getD (t - 16) 0)
      extendSchedule fuel (ws ++ [wNew])

/-- One SHA-256 compression round, consuming one `(K, W)` pair. -/
def roundStep (st : H8) (kw : Nat × Nat) : H8 :=
  let t1 := w32 (st.h + bigSigma1 st.e + chV st.e st.f st.g + kw.1 + kw.2)
  let t2 := w32 (bigSigma0 st.a + majV st.a st.b st.c)
  ⟨w32 (t1 + t2), st.a, st.b, st.c, w32 (st.d + t1), st.e, st.f, st.g⟩

/-- SHA-256 compression of one 64-byte block. -/
def compress (st : H8) (block : List Nat) : H8 :=
  let w := extendSchedule 48 (toWords block)
  let fin := (K256.zip w).foldl roundStep st
  ⟨w32 (st.a + fin.a), w32 (st.b + fin.b), w32 (st.c + fin.c), w32 (st.d + fin.d),
   w32 (st.e + fin.e), w32 (st.f + fin.f), w32 (st.g + fin.g), w32 (st.h + fin.h)⟩

/-- SHA-256 padding: `0x80`, zeros, then the 64-bit big-endian bit length. -/
def padMessage (msg : List Nat) : List Nat :=
  let len := msg.length
  let bitLen := 8 * len
  let r := (len + 1) % 64
  let zeros := if r ≤ 56 then 56 - r else 64 + 56 - r
  msg ++ [128] ++ List.replicate zeros 0 ++
    [(bitLen >>> 56) % 256, (bitLen >>> 48) % 256, (bitLen >>> 40) % 256,
     (bitLen >>> 32) % 256, (bitLen >>> 24) % 256, (bitLen >>> 16) % 256,
     (bitLen >>> 8) % 256, bitLen % 256]

/-- Split a byte sequence into 64-byte blocks. -/
def chunks64 (l : List Nat) : List (List Nat) :=
  if hl : l = [] then []
  else l.take 64 :: chunks64 (l.drop 64)
termination_by l.length
decreasing_by
  simp only [List.length_drop]
  have hp : 0 < l.length := List.length_pos.mpr hl
  omega

/-- The SHA-256 state after hashing a byte sequence. -/
def sha256 (msg : List Nat) : H8 :=
  (chunks64 (padMessage msg)).foldl compress initH

/-- The four big-endian bytes of a 32-bit word. -/
def wordBytes (w : Nat) : List Nat :=
  [(w >>> 24) % 256, (w >>> 16) % 256, (w >>> 8) % 256, w % 256]

/-- The 32 digest bytes of a SHA-256 state. -/
def digestBytes (s : H8) : List Nat :=
  wordBytes s.a ++ wordBytes s.b ++ wordBytes s.c ++ wordBytes s.d ++
  wordBytes s.e ++ wordBytes s.f ++ wordBytes s.g ++ wordBytes s.h

/-! ## The identifier generators -/

/-- The random inputs one run of the generators consumes: `os.urandom(32)`
for `macMachineId`, `random.randint(0, 99)` and the 23 `random.choices`
picks for `machineId`, the 16 `uuid.uuid4()` random bytes, and
`os.urandom(32)` for a freshly generated `sqmId`. -/
structure Entropy where
  macBytes : List Nat
  machineSeq : Fin 100
  machineIdxs : List (Fin 34)
  devBytes : List Nat
  sqmBytes : List Nat

/-- The alphabet `string.ascii_uppercase + string.digits.replace('0', '').replace('1', '')`
used by `generate_machine_id`: the 26 uppercase letters followed by `23456789`. -/
def machine_id_alphabet : List Char :=
  ("ABCDEFGHIJKLMNOPQRSTUVWXYZ" ++ "23456789").data

/-- One `random.choices` pick: the alphabet character at the chosen index. -/
def alphaChar (i : Fin 34) : Char := machine_id_alphabet.getD i.val 'A'

/-- Python `generate_machine_id`: `"auth0|user_"`, then the random sequence
number formatted `%02d` (its two decimal digits, since it lies in `[0, 99]`),
then 23 alphabet characters, hex-encoded over the UTF-8 bytes
(`full_id.encode().hex()`). -/
def generate_machine_id (seq : Fin 100) (idxs : List (Fin 34)) : String :=
  let idPrefix := "auth0|user_".data
  let sequence := [Nat.digitChar (seq.val / 10), Nat.digitChar (seq.val % 10)]
  let unique_id := idxs.map alphaChar
  let full_id := idPrefix ++ sequence ++ unique_id
  ⟨hexEncode (utf8Encode full_id)⟩

/-- Python `generate_mac_machine_id`: `hashlib.sha256(os.urandom(32)).hexdigest()`,
with the 32 random bytes passed in explicitly. -/
def generate_mac_machine_id (data : List Nat) : String :=
  ⟨hexEncode (digestBytes (sha256 data))⟩

/-- Python `generate_dev_device_id`: `str(uuid.uuid4())`. `uuid.uuid4` draws
16 random bytes, forces the version nibble of byte 6 to `4` and the variant
bits of byte 8 to `10`, and renders the canonical hyphenated lowercase form. -/
def generate_dev_device_id (rnd : List Nat) : String :=
  let bs := rnd.map (fun b => b % 256)
  let bs2 := (bs.set 6 ((bs.getD 6 0 &&& 15) ||| 64)).set 8 ((bs.getD 8 0 &&& 63) ||| 128)
  let hx := hexEncode bs2
  ⟨hx.take 8 ++ '-' :: (hx.drop 8).take 4 ++ '-' :: (hx.drop 12).take 4 ++
    '-' :: (hx.drop 16).take 4 ++ '-' :: hx.drop 20⟩

/-- The `StorageConfig` dataclass. The fields hold JSON values: the
generators store strings, but `read_existing_config` copies whatever JSON
values the file holds for the four keys. -/
structure StorageConfig where
  telemetry_mac_machine_id : JValue
  telemetry_machine_id : JValue
  telemetry_dev_device_id : JValue
  telemetry_sqm_id : JValue

/-- `StorageConfig.to_dict`. -/
def StorageConfig.to_dict (c : StorageConfig) : List (String × JValue) :=
  [("telemetry.macMachineId", c.telemetry_mac_machine_id),
   ("telemetry.machineId", c.telemetry_machine_id),
   ("telemetry.devDeviceId", c.telemetry_dev_device_id),
   ("telemetry.sqmId", c.telemetry_sqm_id)]

/-- Python `new_storage_config(old_config)`: regenerate the first three
fields unconditionally; keep `old_config.telemetry_sqm_id` when `old_config`
is present (a dataclass instance is always truthy) and the field is truthy,
otherwise generate a fresh value with the mac-machine-id procedure. -/
def new_storage_config (old_config : Option StorageConfig) (ent : Entropy) :
    StorageConfig :=
  let config : StorageConfig :=
    { telemetry_mac_machine_id := .jstr (generate_mac_machine_id ent.macBytes)
      telemetry_machine_id := .jstr (generate_machine_id ent.machineSeq ent.machineIdxs)
      telemetry_dev_device_id := .jstr (generate_dev_device_id ent.devBytes)
      telemetry_sqm_id := .jstr "" }
  match old_config with
  | some oc =>
      if jTruthy oc.telemetry_sqm_id then
        { config with telemetry_sqm_id := oc.telemetry_sqm_id }
      else
        { config with telemetry_sqm_id := .jstr (generate_mac_machine_id ent.sqmBytes) }
  | none =>
      { config with telemetry_sqm_id := .jstr (generate_mac_machine_id ent.sqmBytes) }

/-! ## File-system state and the config store -/

/-- The content of one file, at the abstraction level the program observes:
either bytes that parse as the JSON value `v`, or bytes that cannot be read
or parsed as JSON (`open`/`json.load` raises on them). -/
inductive FileContent where
  | parsed (v : JValue)
  | malformed (raw : String)

/-- Association-list update with Python `dict` semantics: an existing key
keeps its position and gets the new value, a new key is appended (a `dict`
holds each key at most once, so in-place replacement of the first occurrence
is exactly `d[k] = v`). Also used for writing a path into the file system. -/
def adictSet {α : Type} : List (String × α) → String → α → List (String × α)
  | [], k, v => [(k, v)]
  | p :: rest, k, v =>
      if p.1 == k then (k, v) :: rest else p :: adictSet rest k v

/-- First-match association-list lookup (Python `dict` access). -/
def alookup {α : Type} (d : List (String × α)) (k : String) : Option α :=
  (d.find? (fun p => p.1 == k)).map (fun p => p.2)

/-- Python `{**d, **upd}`: fold the updates into `d` left to right. -/
def dictMerge (d upd : List (String × JValue)) : List (String × JValue) :=
  upd.foldl (fun acc p => adictSet acc p.1 p.2) d

/-- The file-system state: the set of directories that exist, and the files
(path to content). -/
structure FS where
  dirs : List String
  files : List (String × FileContent)

/-- Content of the file at a path, if it exists. -/
def fsLookup (fs : FS) (p : String) : Option FileContent := alookup fs.files p

/-- `os.path.exists` for files. -/
def fsExists (fs : FS) (p : String) : Bool := (fsLookup fs p).isSome

/-- Create or overwrite the file at a path. -/
def fsSet (fs : FS) (p : String) (c : FileContent) : FS :=
  { fs with files := adictSet fs.files p c }

/-- `os.path.dirname`: everything before the last `/` (the paths this
program passes in are absolute and slash-separated). -/
def dirname (p : String) : String :=
  ⟨((p.data.reverse.dropWhile (fun c => c != '/')).drop 1).reverse⟩

/-- The directory and its ancestors, innermost first, obtained by repeated
`dirname` (the fuel is an upper bound on the chain length). -/
def ancestorChain : Nat → String → List String
  | 0, _ => []
  | fuel + 1, p => if p = "" ∨ p = "/" then [] else p :: ancestorChain fuel (dirname p)

/-- `os.makedirs(d, exist_ok=True)`: the directory and all its ancestors
exist afterwards. -/
def makedirs (fs : FS) (d : String) : FS :=
  { fs with dirs := ancestorChain d.length d ++ fs.dirs }

/-- The `AppError` exception: error kind, operation label, affected path,
and the underlying cause rendered as a message. -/
structure AppError where
  type : String
  op : String
  path : String
  err : String
deriving DecidableEq

/-- Python module constant `ERR_CONFIG`. -/
def ERR_CONFIG : String := "config_error"

/-- Python `get_config_path(username)`: the macOS path under
`platform.system() == "Darwin"`, the Linux path otherwise; the segments are
joined by `/` as `os.path.join` does for these arguments. -/
def get_config_path (isDarwin : Bool) (username : String) : String :=
  if isDarwin then
    "/Users/" ++ username ++ "/Library/Application Support/Cursor/User/globalStorage/storage.json"
  else
    "/home/" ++ username ++ "/.config/Cursor/User/globalStorage/storage.json"

/-- Python `data.get(key, "")` on a parsed JSON object. -/
def jGet (fields : List (String × JValue)) (k : String) : JValue :=
  (alookup fields k).getD (.jstr "")

/-- Python `read_existing_config(username)`: `None` when the file does not
exist; a `StorageConfig` holding the four keys (missing keys default to the
empty string) when it parses as a JSON object; an `AppError(ERR_CONFIG,
"read_config", path)` when the file exists but cannot be read or parsed, or
parses to a non-object (then `data.get` raises `AttributeError` inside the
same guarded block). -/
def read_existing_config (isDarwin : Bool) (username : String) (fs : FS) :
    Except AppError (Option StorageConfig) :=
  let config_path := get_config_path isDarwin username
  match fsLookup fs config_path with
  | none => .ok none
  | some (.parsed (.jobj fields)) =>
      .ok (some
        { telemetry_mac_machine_id := jGet fields "telemetry.macMachineId"
          telemetry_machine_id := jGet fields "telemetry.machineId"
          telemetry_dev_device_id := jGet fields "telemetry.devDeviceId"
          telemetry_sqm_id := jGet fields "telemetry.sqmId" })
  | some (.parsed _) =>
      .error ⟨ERR_CONFIG, "read_config", config_path, "AttributeError"⟩
  | some (.malformed _) =>
      .error ⟨ERR_CONFIG, "read_config", config_path, "JSONDecodeError"⟩

/-- Which I/O steps of `save_config` raise in this run: the backup
read/write pair, and the final open/`json.dump`. -/
structure IOEnv where
  backupFails : Bool
  writeFails : Bool

/-- The result of `save_config`: the file system afterwards, the messages
passed to `log_print`, and the `AppError` it raised, if any. -/
structure SaveOut where
  fs : FS
  log : List String
  err : Option AppError

/-- The backup step of `save_config`: when the target exists, relax its
permissions (`os.chmod(path, 0o666)`, metadata we do not model), then copy
its content to `<path>.<unix_time>.bak`; a failure is only logged. -/
def backupStep (config_path : String) (t : Nat) (env : IOEnv) (fs : FS) :
    FS × List String :=
  match fsLookup fs config_path with
  | some content =>
      let backup_path := config_path ++ "." ++ toString t ++ ".bak"
      if env.backupFails then
        (fs, ["创建备份失败"])
      else
        (fsSet fs backup_path content, ["已创建配置文件备份: " ++ backup_path])
  | none => (fs, [])

/-- The guarded merge-and-write block of `save_config`: `original_data` is
the empty object when the file does not exist, otherwise `json.load` of its
content (raising on malformed content); the merge `{**original_data,
**config.to_dict()}` raises `TypeError` when the loaded value is not an
object; any exception in the block becomes
`AppError(ERR_CONFIG, "save_config", path)`. -/
def mergeWriteStep (config : StorageConfig) (config_path : String) (env : IOEnv)
    (fs : FS) : FS × Option AppError :=
  match fsLookup fs config_path with
  | none =>
      if env.writeFails then
        (fs, some ⟨ERR_CONFIG, "save_config", config_path, "OSError"⟩)
      else
        (fsSet fs config_path (.parsed (.jobj (dictMerge [] config.to_dict))), none)
  | some (.parsed (.jobj d)) =>
      if env.writeFails then
        (fs, some ⟨ERR_CONFIG, "save_config", config_path, "OSError"⟩)
      else
        (fsSet fs config_path (.parsed (.jobj (dictMerge d config.to_dict))), none)
  | some (.parsed _) =>
      (fs, some ⟨ERR_CONFIG, "save_config", config_path, "TypeError"⟩)
  | some (.malformed _) =>
      (fs, some ⟨ERR_CONFIG, "save_config", config_path, "JSONDecodeError"⟩)

/-- Python `save_config(config, username)`: ensure the parent directory
chain, back up an existing target, then merge and write. -/
def save_config (config : StorageConfig) (isDarwin : Bool) (username : String)
    (t : Nat) (env : IOEnv) (fs : FS) : SaveOut :=
  let config_path := get_config_path isDarwin username
  let fs1 := makedirs fs (dirname config_path)
  let step2 := backupStep config_path t env fs1
  let step3 := mergeWriteStep config config_path env step2.1
  ⟨step3.1, step2.2, step3.2⟩

/-! ## The orchestration fragment of `main` around read, generate and save -/

/-- Reading a Python local variable: raises `UnboundLocalError` when the
variable has never been assigned in this function run. -/
def readLocal {α : Type} (v : Option α) (name : String) : Except String α :=
  match v with
  | some x => .ok x
  | none => .error ("UnboundLocalError: cannot access local variable " ++ name)

/-- How the guarded block of `main` ends. -/
inductive MainOutcome where
  | earlyReturn (fs : FS)
  | cancelled (fs : FS)
  | success (fs : FS)
  | fatal (msg : String) (fs : FS)

/-- The message `AppError.__str__` renders (without context). -/
def appErrorMsg (e : AppError) : String :=
  "[" ++ e.type ++ "] " ++ e.op ++ ": " ++ e.err

/-- The part of `main` following the read attempt. `currentVar` is the state
of the local variable `current_config`: `none` when the assignment
`current_config = read_existing_config(username)` did not complete. The code
`new_storage_config(current_config)` reads that local; an exception there or
in `save_config` reaches `main`'s outer `except Exception` handler. -/
def mainAfterRead (currentVar : Option (Option StorageConfig)) (isDarwin : Bool)
    (username : String) (ent : Entropy) (t : Nat) (env : IOEnv)
    (confirmOverwrite : Bool) (fs : FS) : MainOutcome :=
  match readLocal currentVar "current_config" with
  | .error msg => .fatal msg fs
  | .ok current_config =>
      let new_config := new_storage_config current_config ent
      if !confirmOverwrite then .cancelled fs
      else
        let out := save_config new_config isDarwin username t env fs
        match out.err with
        | some e => .fatal (appErrorMsg e) out.fs
        | none => .success out.fs

/-- The read/generate/save sequence of `main`: on a read failure the error
is shown and the user is asked whether to continue (`confirmContinue`); a
decline returns, a confirm falls through to the generation step with the
local `current_config` still unassigned. -/
def mainFlow (isDarwin : Bool) (username : String) (ent : Entropy) (t : Nat)
    (env : IOEnv) (confirmContinue confirmOverwrite : Bool) (fs : FS) :
    MainOutcome :=
  match read_existing_config isDarwin username fs with
  | .ok current_config =>
      mainAfterRead (some current_config) isDarwin username ent t env
        confirmOverwrite fs
  | .error _ =>
      if !confirmContinue then .earlyReturn fs
      else
        mainAfterRead none isDarwin username ent t env confirmOverwrite fs

/-! ## Lemmas about encoding -/

/-- The shape `^[0-9a-f]\x7b64\x7d$`: exactly 64 characters, all lowercase
hex digits. -/
def is64LowerHex (s : String) : Prop :=
  s.data.length = 64 ∧ ∀ c ∈ s.data, c ∈ hexCharsL

/-- A JSON value that is a non-empty string. -/
def nonEmptyJStr (v : JValue) : Prop := ∃ s, v = .jstr s ∧ s ≠ ""

theorem hexChar_mem (n : Nat) : hexChar n ∈ hexCharsL := by
  have hlt : n % 16 < 16 := Nat.mod_lt _ (by omega)
  have hall : ∀ m < 16, hexCharsL.getD m '0' ∈ hexCharsL := by decide
  exact hall _ hlt

theorem hexEncode_length (bs : List Nat) : (hexEncode bs).length = 2 * bs.length := by
  induction bs with
  | nil => rfl
  | cons b rest ih => simp [hexEncode, toHex2, ih]; omega

theorem mem_hexEncode (bs : List Nat) (c : Char) (hc : c ∈ hexEncode bs) :
    c ∈ hexCharsL := by
  induction bs with
  | nil => simp [hexEncode] at hc
  | cons b rest ih =>
      rcases List.mem_append.mp hc with h | h
      · simp only [toHex2, List.mem_cons, List.not_mem_nil, or_false] at h
        rcases h with h | h
        · rw [h]; exact hexChar_mem _
        · rw [h]; exact hexChar_mem _
      · exact ih h

theorem digestBytes_length (s : H8) : (digestBytes s).length = 32 := rfl

theorem hexVal_hexChar : ∀ d < 16, hexVal (hexChar d) = some d := by decide

theorem utf8Bytes_ascii (c : Char) (h : c.toNat < 128) : utf8Bytes c = [c.toNat] := by
  simp [utf8Bytes, h]

theorem hexDecodeAscii_hexEncode (l : List Char) (h : ∀ c ∈ l, c.toNat < 128) :
    hexDecodeAscii (hexEncode (utf8Encode l)) = some l := by
  induction l with
  | nil => rfl
  | cons c cs ih =>
      have hc : c.toNat < 128 := h c (List.mem_cons_self c cs)
      have hcs : ∀ x ∈ cs, x.toNat < 128 := fun x hx => h x (List.mem_cons_of_mem c hx)
      have h1 : utf8Encode (c :: cs) = c.toNat :: utf8Encode cs := by
        simp [utf8Encode, utf8Bytes_ascii c hc]
      have hd : c.toNat / 16 < 16 := by omega
      have hm : c.toNat % 16 < 16 := Nat.mod_lt _ (by omega)
      have hsum : 16 * (c.toNat / 16) + c.toNat % 16 = c.toNat := Nat.div_add_mod _ 16
      rw [h1]
      show hexDecodeAscii
          (hexChar (c.toNat / 16) :: hexChar (c.toNat % 16) :: hexEncode (utf8Encode cs)) =
        some (c :: cs)
      simp only [hexDecodeAscii, hexVal_hexChar _ hd, hexVal_hexChar _ hm,
        Option.bind_eq_bind, Option.some_bind, hsum, hc, if_true, ih hcs,
        Char.ofNat_toNat, Option.pure_def]

/-! ## Lemmas about association lists and the file system -/

theorem alookup_adictSet_self {α : Type} (d : List (String × α)) (k : String) (v : α) :
    alookup (adictSet d k v) k = some v := by
  induction d with
  | nil => simp [alookup, adictSet]
  | cons p rest ih =>
      by_cases hp : p.1 = k
      · simp [adictSet, alookup, hp]
      · have hp' : (p.1 == k) = false := beq_eq_false_iff_ne.mpr hp
        simp [adictSet, alookup, hp'] at ih ⊢
        exact ih

theorem alookup_adictSet_ne {α : Type} (d : List (String × α)) (k k' : String)
    (v : α) (hne : k' ≠ k) : alookup (adictSet d k v) k' = alookup d k' := by
  induction d with
  | nil =>
      have hk' : (k == k') = false := beq_eq_false_iff_ne.mpr (fun hh => hne hh.symm)
      simp [alookup, adictSet, hk']
  | cons p rest ih =>
      by_cases hp : p.1 = k
      · have hk' : (k == k') = false := beq_eq_false_iff_ne.mpr (fun hh => hne hh.symm)
        have hpk' : (p.1 == k') = false := by
          subst hp; exact hk'
        simp [adictSet, alookup, beq_iff_eq.mpr hp, hk', hpk']
      · have hp' : (p.1 == k) = false := beq_eq_false_iff_ne.mpr hp
        by_cases hq : p.1 = k'
        · simp [adictSet, alookup, hp', beq_iff_eq.mpr hq]
        · have hq' : (p.1 == k') = false := beq_eq_false_iff_ne.mpr hq
          simp [adictSet, alookup, hp', hq'] at ih ⊢
          exact ih

theorem fsLookup_fsSet_self (fs : FS) (p : String) (c : FileContent) :
    fsLookup (fsSet fs p c) p = some c := alookup_adictSet_self _ _ _

theorem fsLookup_fsSet_ne (fs : FS) (p q : String) (c : FileContent)
    (h : q ≠ p) : fsLookup (fsSet fs p c) q = fsLookup fs q :=
  alookup_adictSet_ne _ _ _ _ h

theorem fsLookup_makedirs (fs : FS) (d : String) (p : String) :
    fsLookup (makedirs fs d) p = fsLookup fs p := rfl

/-! ## Lemmas about the merged document -/

theorem alookup_dictMerge_mac (d : List (String × JValue)) (cfg : StorageConfig) :
    alookup (dictMerge d cfg.to_dict) "telemetry.macMachineId" =
      some cfg.telemetry_mac_machine_id := by
  show alookup (adictSet (adictSet (adictSet (adictSet d
      "telemetry.macMachineId" cfg.telemetry_mac_machine_id)
      "telemetry.machineId" cfg.telemetry_machine_id)
      "telemetry.devDeviceId" cfg.telemetry_dev_device_id)
      "telemetry.sqmId" cfg.telemetry_sqm_id) "telemetry.macMachineId" = _
  rw [alookup_adictSet_ne _ _ _ _ (by decide), alookup_adictSet_ne _ _ _ _ (by decide),
    alookup_adictSet_ne _ _ _ _ (by decide), alookup_adictSet_self]

theorem alookup_dictMerge_machine (d : List (String × JValue)) (cfg : StorageConfig) :
    alookup (dictMerge d cfg.to_dict) "telemetry.machineId" =
      some cfg.telemetry_machine_id := by
  show alookup (adictSet (adictSet (adictSet (adictSet d
      "telemetry.macMachineId" cfg.telemetry_mac_machine_id)
      "telemetry.machineId" cfg.telemetry_machine_id)
      "telemetry.devDeviceId" cfg.telemetry_dev_device_id)
      "telemetry.sqmId" cfg.telemetry_sqm_id) "telemetry.machineId" = _
  rw [alookup_adictSet_ne _ _ _ _ (by decide), alookup_adictSet_ne _ _ _ _ (by decide),
    alookup_adictSet_self]

theorem alookup_dictMerge_dev (d : List (String × JValue)) (cfg : StorageConfig) :
    alookup (dictMerge d cfg.to_dict) "telemetry.devDeviceId" =
      some cfg.telemetry_dev_device_id := by
  show alookup (adictSet (adictSet (adictSet (adictSet d
      "telemetry.macMachineId" cfg.telemetry_mac_machine_id)
      "telemetry.machineId" cfg.telemetry_machine_id)
      "telemetry.devDeviceId" cfg.telemetry_dev_device_id)
      "telemetry.sqmId" cfg.telemetry_sqm_id) "telemetry.devDeviceId" = _
  rw [alookup_adictSet_ne _ _ _ _ (by decide), alookup_adictSet_self]

theorem alookup_dictMerge_sqm (d : List (String × JValue)) (cfg : StorageConfig) :
    alookup (dictMerge d cfg.to_dict) "telemetry.sqmId" =
      some cfg.telemetry_sqm_id := by
  show alookup (adictSet (adictSet (adictSet (adictSet d
      "telemetry.macMachineId" cfg.telemetry_mac_machine_id)
      "telemetry.machineId" cfg.telemetry_machine_id)
      "telemetry.devDeviceId" cfg.telemetry_dev_device_id)
      "telemetry.sqmId" cfg.telemetry_sqm_id) "telemetry.sqmId" = _
  rw [alookup_adictSet_self]

theorem alookup_dictMerge_other (d : List (String × JValue)) (cfg : StorageConfig)
    (k : String) (h1 : k ≠ "telemetry.macMachineId") (h2 : k ≠ "telemetry.machineId")
    (h3 : k ≠ "telemetry.devDeviceId") (h4 : k ≠ "telemetry.sqmId") :
    alookup (dictMerge d cfg.to_dict) k = alookup d k := by
  show alookup (adictSet (adictSet (adictSet (adictSet d
      "telemetry.macMachineId" cfg.telemetry_mac_machine_id)
      "telemetry.machineId" cfg.telemetry_machine_id)
      "telemetry.devDeviceId" cfg.telemetry_dev_device_id)
      "telemetry.sqmId" cfg.telemetry_sqm_id) k = _
  rw [alookup_adictSet_ne _ _ _ _ h4, alookup_adictSet_ne _ _ _ _ h3,
    alookup_adictSet_ne _ _ _ _ h2, alookup_adictSet_ne _ _ _ _ h1]

/-! ## Lemmas about the steps of `save_config` -/

theorem backup_path_ne (cp : String) (t : Nat) :
    cp ++ "." ++ toString t ++ ".bak" ≠ cp := by
  intro h
  have hlen := congrArg String.length h
  rw [String.length_append, String.length_append, String.length_append] at hlen
  have h1 : ".".length = 1 := rfl
  have h2 : ".bak".length = 4 := rfl
  rw [h1, h2] at hlen
  omega

theorem backupStep_dirs (cp : String) (t : Nat) (env : IOEnv) (fs : FS) :
    (backupStep cp t env fs).1.dirs = fs.dirs := by
  unfold backupStep
  cases hcc : fsLookup fs cp with
  | none => rfl
  | some content =>
      by_cases hb : env.backupFails <;> simp [hb, fsSet]

theorem backupStep_lookup_other (cp : String) (t : Nat) (env : IOEnv) (fs : FS)
    (q : String) (hq : q ≠ cp ++ "." ++ toString t ++ ".bak") :
    fsLookup (backupStep cp t env fs).1 q = fsLookup fs q := by
  unfold backupStep
  cases hcc : fsLookup fs cp with
  | none => rfl
  | some content =>
      by_cases hb : env.backupFails
      · simp [hb]
      · simp [hb, fsLookup_fsSet_ne _ _ _ _ hq]

theorem backupStep_creates (cp : String) (t : Nat) (env : IOEnv) (fs : FS)
    (content : FileContent) (hc : fsLookup fs cp = some content)
    (hb : env.backupFails = false) :
    (backupStep cp t env fs).1 =
        fsSet fs (cp ++ "." ++ toString t ++ ".bak") content ∧
      (backupStep cp t env fs).2 =
        ["已创建配置文件备份: " ++ (cp ++ "." ++ toString t ++ ".bak")] := by
  unfold backupStep
  simp [hc, hb]

theorem backupStep_fails (cp : String) (t : Nat) (env : IOEnv) (fs : FS)
    (content : FileContent) (hc : fsLookup fs cp = some content)
    (hb : env.backupFails = true) :
    backupStep cp t env fs = (fs, ["创建备份失败"]) := by
  unfold backupStep
  simp [hc, hb]

theorem backupStep_absent (cp : String) (t : Nat) (env : IOEnv) (fs : FS)
    (hc : fsLookup fs cp = none) : backupStep cp t env fs = (fs, []) := by
  unfold backupStep
  simp [hc]

theorem mergeWriteStep_obj (config : StorageConfig) (cp : String) (env : IOEnv)
    (fs : FS) (d : List (String × JValue))
    (hc : fsLookup fs cp = some (.parsed (.jobj d))) (hw : env.writeFails = false) :
    mergeWriteStep config cp env fs =
      (fsSet fs cp (.parsed (.jobj (dictMerge d config.to_dict))), none) := by
  unfold mergeWriteStep
  simp [hc, hw]

theorem mergeWriteStep_absent (config : StorageConfig) (cp : String) (env : IOEnv)
    (fs : FS) (hc : fsLookup fs cp = none) (hw : env.writeFails = false) :
    mergeWriteStep config cp env fs =
      (fsSet fs cp (.parsed (.jobj (dictMerge [] config.to_dict))), none) := by
  unfold mergeWriteStep
  simp [hc, hw]

theorem mergeWriteStep_malformed (config : StorageConfig) (cp : String)
    (env : IOEnv) (fs : FS) (raw : String)
    (hc : fsLookup fs cp = some (.malformed raw)) :
    mergeWriteStep config cp env fs =
      (fs, some ⟨ERR_CONFIG, "save_config", cp, "JSONDecodeError"⟩) := by
  unfold mergeWriteStep
  simp [hc]

theorem mergeWriteStep_err_none (config : StorageConfig) (cp : String)
    (env : IOEnv) (fs : FS) (h : (mergeWriteStep config cp env fs).2 = none) :
    env.writeFails = false ∧
      ∃ d, ((fsLookup fs cp = none ∧ d = []) ∨
          fsLookup fs cp = some (.parsed (.jobj d))) ∧
        (mergeWriteStep config cp env fs).1 =
          fsSet fs cp (.parsed (.jobj (dictMerge d config.to_dict))) := by
  unfold mergeWriteStep at h ⊢
  cases hc : fsLookup fs cp with
  | none =>
      rw [hc] at h
      by_cases hw : env.writeFails
      · simp [hw] at h
      · simp only [Bool.not_eq_true] at hw
        refine ⟨hw, [], Or.inl ⟨rfl, rfl⟩, ?_⟩
        simp [hw]
  | some content =>
      rw [hc] at h
      cases content with
      | parsed v =>
          cases v with
          | jobj d =>
              by_cases hw : env.writeFails
              · simp [hw] at h
              · simp only [Bool.not_eq_true] at hw
                refine ⟨hw, d, Or.inr rfl, ?_⟩
                simp [hw]
          | jnull => simp at h
          | jbool b => simp at h
          | jnum n => simp at h
          | jstr s => simp at h
          | jarr l => simp at h
      | malformed raw => simp at h

theorem save_config_eq (config : StorageConfig) (isDarwin : Bool)
    (username : String) (t : Nat) (env : IOEnv) (fs : FS) :
    save_config config isDarwin username t env fs =
      ⟨(mergeWriteStep config (get_config_path isDarwin username) env
          (backupStep (get_config_path isDarwin username) t env
            (makedirs fs (dirname (get_config_path isDarwin username)))).1).1,
        (backupStep (get_config_path isDarwin username) t env
          (makedirs fs (dirname (get_config_path isDarwin username)))).2,
        (mergeWriteStep config (get_config_path isDarwin username) env
          (backupStep (get_config_path isDarwin username) t env
            (makedirs fs (dirname (get_config_path isDarwin username)))).1).2⟩ := rfl

/-! ## Non-emptiness of generated identifiers -/

theorem utf8Bytes_ne_nil (c : Char) : utf8Bytes c ≠ [] := by
  simp only [utf8Bytes]
  split
  · simp
  · split
    · simp
    · split <;> simp

theorem utf8Encode_ne_nil (l : List Char) (h : l ≠ []) : utf8Encode l ≠ [] := by
  cases l with
  | nil => exact absurd rfl h
  | cons c cs =>
      show utf8Bytes c ++ utf8Encode cs ≠ []
      intro hh
      exact utf8Bytes_ne_nil c (List.append_eq_nil.mp hh).1

theorem hexEncode_ne_nil (bs : List Nat) (h : bs ≠ []) : hexEncode bs ≠ [] := by
  cases bs with
  | nil => exact absurd rfl h
  | cons b rest => simp [hexEncode, toHex2]

theorem generate_machine_id_ne_empty (seq : Fin 100) (idxs : List (Fin 34)) :
    generate_machine_id seq idxs ≠ "" := by
  intro h
  have hd := congrArg String.data h
  have hfull : ("auth0|user_".data ++
      [Nat.digitChar (seq.val / 10), Nat.digitChar (seq.val % 10)] ++
      idxs.map alphaChar) ≠ [] := by
    intro hh
    have h1 := (List.append_eq_nil.mp hh).1
    have h2 := (List.append_eq_nil.mp h1).1
    revert h2
    decide
  exact hexEncode_ne_nil _ (utf8Encode_ne_nil _ hfull) hd

theorem generate_mac_machine_id_ne_empty (data : List Nat) :
    generate_mac_machine_id data ≠ "" := by
  intro h
  have hd := congrArg String.data h
  exact hexEncode_ne_nil _ (by simp [digestBytes, wordBytes]) hd

theorem generate_dev_device_id_ne_empty (rnd : List Nat) :
    generate_dev_device_id rnd ≠ "" := by
  intro h
  have hd := congrArg String.data h
  simp [generate_dev_device_id] at hd

/-! ## Claim theorems for the generators -/

/-- C8: every value returned by `generate_mac_machine_id` — and therefore
every generated `macMachineId` and every freshly generated `sqmId` — is a
64-character string of lowercase hex digits (the lowercase hex SHA-256
digest of the 32 random input bytes). -/
theorem c8_mac_machine_id_is_64_lower_hex (data : List Nat) :
    is64LowerHex (generate_mac_machine_id data) := by
  refine ⟨?_, ?_⟩
  · show (hexEncode (digestBytes (sha256 data))).length = 64
    rw [hexEncode_length, digestBytes_length]
  · intro c hc
    exact mem_hexEncode _ _ hc

/-- C7: every value returned by `generate_machine_id` hex-decodes (two
lowercase hex digits per byte) to a string of the exact form `auth0|user_`
followed by a two-digit zero-padded number in 00–99 followed by 23
characters, each an uppercase letter or a digit from 2 to 9, never the
digit 0 or 1. -/
theorem c7_machine_id_shape (seq : Fin 100) (idxs : List (Fin 34))
    (hlen : idxs.length = 23) :
    ∃ d1 d2 sfx,
      hexDecodeAscii (generate_machine_id seq idxs).data =
        some ("auth0|user_".data ++ d1 :: d2 :: sfx) ∧
      d1.isDigit = true ∧ d2.isDigit = true ∧ sfx.length = 23 ∧
      ∀ c ∈ sfx,
        (('A' ≤ c ∧ c ≤ 'Z') ∨ ('2' ≤ c ∧ c ≤ '9')) ∧ c ≠ '0' ∧ c ≠ '1' := by
  have hdigitlt : ∀ n < 10, (Nat.digitChar n).toNat < 128 := by decide
  have hdigit : ∀ n < 10, (Nat.digitChar n).isDigit = true := by decide
  have halpha : ∀ i : Fin 34, (alphaChar i).toNat < 128 := by decide
  have halphaP : ∀ i : Fin 34,
      (('A' ≤ alphaChar i ∧ alphaChar i ≤ 'Z') ∨
        ('2' ≤ alphaChar i ∧ alphaChar i ≤ '9')) ∧
        alphaChar i ≠ '0' ∧ alphaChar i ≠ '1' := by decide
  have hq : seq.val / 10 < 10 := by omega
  have hr : seq.val % 10 < 10 := Nat.mod_lt _ (by omega)
  have hascii : ∀ c ∈ ("auth0|user_".data ++
      [Nat.digitChar (seq.val / 10), Nat.digitChar (seq.val % 10)] ++
      idxs.map alphaChar), c.toNat < 128 := by
    intro c hc
    rcases List.mem_append.mp hc with hc1 | hc2
    · rcases List.mem_append.mp hc1 with hc3 | hc4
      · revert hc3
        have : ∀ c ∈ "auth0|user_".data, c.toNat < 128 := by decide
        exact fun hh => this c hh
      · simp only [List.mem_cons, List.not_mem_nil, or_false] at hc4
        rcases hc4 with h | h
        · rw [h]; exact hdigitlt _ hq
        · rw [h]; exact hdigitlt _ hr
    · rcases List.mem_map.mp hc2 with ⟨i, _, hi⟩
      rw [← hi]; exact halpha i
  refine ⟨Nat.digitChar (seq.val / 10), Nat.digitChar (seq.val % 10),
    idxs.map alphaChar, ?_, hdigit _ hq, hdigit _ hr, by simp [hlen], ?_⟩
  · have hdec := hexDecodeAscii_hexEncode _ hascii
    show hexDecodeAscii (hexEncode (utf8Encode ("auth0|user_".data ++
      [Nat.digitChar (seq.val / 10), Nat.digitChar (seq.val % 10)] ++
      idxs.map alphaChar))) = _
    rw [hdec]
    simp [List.append_assoc]
  · intro c hc
    rcases List.mem_map.mp hc with ⟨i, _, hi⟩
    rw [← hi]; exact halphaP i

/-- C1: `new_storage_config` keeps a non-empty old `sqmId` unchanged; when
the old set is absent or its `sqmId` is the empty string, the returned
`sqmId` is freshly generated by the same SHA-256-of-32-random-bytes
procedure as `macMachineId` and is a 64-character lowercase hex string;
`macMachineId`, `machineId` and `devDeviceId` are regenerated
unconditionally; and in both cases all four fields are non-empty strings. -/
theorem c1_new_storage_config (old : Option StorageConfig) (ent : Entropy) :
    (new_storage_config old ent).telemetry_mac_machine_id =
        .jstr (generate_mac_machine_id ent.macBytes) ∧
    (new_storage_config old ent).telemetry_machine_id =
        .jstr (generate_machine_id ent.machineSeq ent.machineIdxs) ∧
    (new_storage_config old ent).telemetry_dev_device_id =
        .jstr (generate_dev_device_id ent.devBytes) ∧
    (∀ oc s, old = some oc → oc.telemetry_sqm_id = .jstr s → s ≠ "" →
      (new_storage_config old ent).telemetry_sqm_id = .jstr s) ∧
    ((old = none ∨ ∃ oc, old = some oc ∧ oc.telemetry_sqm_id = .jstr "") →
      (new_storage_config old ent).telemetry_sqm_id =
          .jstr (generate_mac_machine_id ent.sqmBytes) ∧
        is64LowerHex (generate_mac_machine_id ent.sqmBytes)) ∧
    nonEmptyJStr (new_storage_config old ent).telemetry_mac_machine_id ∧
    nonEmptyJStr (new_storage_config old ent).telemetry_machine_id ∧
    nonEmptyJStr (new_storage_config old ent).telemetry_dev_device_id ∧
    ((old = none ∨ ∃ oc s, old = some oc ∧ oc.telemetry_sqm_id = .jstr s) →
      nonEmptyJStr (new_storage_config old ent).telemetry_sqm_id) := by
  have hmac : (new_storage_config old ent).telemetry_mac_machine_id =
      .jstr (generate_mac_machine_id ent.macBytes) := by
    cases old with
    | none => rfl
    | some oc =>
        by_cases ht : jTruthy oc.telemetry_sqm_id <;>
          simp [new_storage_config, ht]
  have hmid : (new_storage_config old ent).telemetry_machine_id =
      .jstr (generate_machine_id ent.machineSeq ent.machineIdxs) := by
    cases old with
    | none => rfl
    | some oc =>
        by_cases ht : jTruthy oc.telemetry_sqm_id <;>
          simp [new_storage_config, ht]
  have hdev : (new_storage_config old ent).telemetry_dev_device_id =
      .jstr (generate_dev_device_id ent.devBytes) := by
    cases old with
    | none => rfl
    | some oc =>
        by_cases ht : jTruthy oc.telemetry_sqm_id <;>
          simp [new_storage_config, ht]
  have hkeep : ∀ oc s, old = some oc → oc.telemetry_sqm_id = .jstr s → s ≠ "" →
      (new_storage_config old ent).telemetry_sqm_id = .jstr s := by
    intro oc s hold hs hne
    subst hold
    have ht : jTruthy (JValue.jstr s) = true := by
      simpa [jTruthy] using hne
    simp [new_storage_config, hs, ht]
  have hfresh : (old = none ∨ ∃ oc, old = some oc ∧ oc.telemetry_sqm_id = .jstr "") →
      (new_storage_config old ent).telemetry_sqm_id =
        .jstr (generate_mac_machine_id ent.sqmBytes) := by
    intro h
    rcases h with h | ⟨oc, hold, hs⟩
    · subst h; rfl
    · subst hold
      have ht : jTruthy oc.telemetry_sqm_id = false := by
        rw [hs]; simp [jTruthy]
      simp [new_storage_config, ht]
  refine ⟨hmac, hmid, hdev, hkeep, fun h => ⟨hfresh h, c8_mac_machine_id_is_64_lower_hex _⟩,
    ⟨_, hmac, generate_mac_machine_id_ne_empty _⟩,
    ⟨_, hmid, generate_machine_id_ne_empty _ _⟩,
    ⟨_, hdev, generate_dev_device_id_ne_empty _⟩, ?_⟩
  intro h
  rcases h with h | ⟨oc, s, hold, hs⟩
  · exact ⟨_, hfresh (Or.inl h), generate_mac_machine_id_ne_empty _⟩
  · by_cases hse : s = ""
    · subst hse
      exact ⟨_, hfresh (Or.inr ⟨oc, hold, hs⟩), generate_mac_machine_id_ne_empty _⟩
    · exact ⟨s, hkeep oc s hold hs hse, hse⟩

/-- Witness for C1: a concrete old set with non-empty `sqmId` keeps it. -/
theorem c1_new_storage_config_witness :
    (new_storage_config (some ⟨.jstr "a", .jstr "b", .jstr "c", .jstr "x"⟩)
        ⟨[], 0, [], [], []⟩).telemetry_sqm_id = .jstr "x" :=
  (c1_new_storage_config (some ⟨.jstr "a", .jstr "b", .jstr "c", .jstr "x"⟩)
      ⟨[], 0, [], [], []⟩).2.2.2.1 _ "x" rfl rfl (by decide)

/-- Witness for C7 at a concrete sequence number and concrete picks. -/
theorem c7_machine_id_shape_witness :
    ∃ d1 d2 sfx,
      hexDecodeAscii (generate_machine_id 0 (List.replicate 23 0)).data =
        some ("auth0|user_".data ++ d1 :: d2 :: sfx) ∧
      d1.isDigit = true ∧ d2.isDigit = true ∧ sfx.length = 23 ∧
      ∀ c ∈ sfx,
        (('A' ≤ c ∧ c ≤ 'Z') ∨ ('2' ≤ c ∧ c ≤ '9')) ∧ c ≠ '0' ∧ c ≠ '1' :=
  c7_machine_id_shape 0 (List.replicate 23 0) rfl

/-! ## Claim theorems for the config store -/

/-- C10: when the config file exists and holds valid JSON that is not a
JSON object (an array, a number, ...), `read_existing_config` neither
returns a set nor returns absent: key extraction raises inside the guarded
block, so it fails with `AppError(config_error, read_config, path)`. -/
theorem c10_read_non_object (isDarwin : Bool) (username : String) (fs : FS)
    (v : JValue)
    (hv : fsLookup fs (get_config_path isDarwin username) = some (.parsed v))
    (hno : ∀ fields, v ≠ .jobj fields) :
    read_existing_config isDarwin username fs =
      .error ⟨ERR_CONFIG, "read_config", get_config_path isDarwin username,
        "AttributeError"⟩ := by
  simp only [read_existing_config]
  rw [hv]
  cases v with
  | jobj fields => exact absurd rfl (hno fields)
  | jnull => rfl
  | jbool b => rfl
  | jnum n => rfl
  | jstr s => rfl
  | jarr l => rfl

/-- Witness for C10: a config file holding the JSON array `[]`. -/
theorem c10_read_non_object_witness :
    read_existing_config false "u"
        ⟨[], [(get_config_path false "u", .parsed (.jarr []))]⟩ =
      .error ⟨ERR_CONFIG, "read_config", get_config_path false "u",
        "AttributeError"⟩ :=
  c10_read_non_object false "u" _ (.jarr []) rfl (fun _ h => JValue.noConfusion h)

/-- C5: for every pre-existing JSON object in the config file, a successful
`save_config` writes the merged object that maps the four telemetry keys to
the new identifier set's values and every other pre-existing key to its
original value. -/
theorem c5_save_preserves_other_keys (cfg : StorageConfig) (isDarwin : Bool)
    (username : String) (t : Nat) (env : IOEnv) (fs : FS)
    (d : List (String × JValue))
    (hfile : fsLookup fs (get_config_path isDarwin username) =
      some (.parsed (.jobj d)))
    (hw : env.writeFails = false) :
    (save_config cfg isDarwin username t env fs).err = none ∧
    fsLookup (save_config cfg isDarwin username t env fs).fs
        (get_config_path isDarwin username) =
      some (.parsed (.jobj (dictMerge d cfg.to_dict))) ∧
    alookup (dictMerge d cfg.to_dict) "telemetry.macMachineId" =
      some cfg.telemetry_mac_machine_id ∧
    alookup (dictMerge d cfg.to_dict) "telemetry.machineId" =
      some cfg.telemetry_machine_id ∧
    alookup (dictMerge d cfg.to_dict) "telemetry.devDeviceId" =
      some cfg.telemetry_dev_device_id ∧
    alookup (dictMerge d cfg.to_dict) "telemetry.sqmId" =
      some cfg.telemetry_sqm_id ∧
    ∀ k, k ≠ "telemetry.macMachineId" → k ≠ "telemetry.machineId" →
      k ≠ "telemetry.devDeviceId" → k ≠ "telemetry.sqmId" →
      alookup (dictMerge d cfg.to_dict) k = alookup d k := by
  have hcp : fsLookup (makedirs fs (dirname (get_config_path isDarwin username)))
      (get_config_path isDarwin username) = some (.parsed (.jobj d)) := by
    rw [fsLookup_makedirs]; exact hfile
  have h2 : fsLookup (backupStep (get_config_path isDarwin username) t env
      (makedirs fs (dirname (get_config_path isDarwin username)))).1
      (get_config_path isDarwin username) = some (.parsed (.jobj d)) := by
    rw [backupStep_lookup_other _ _ _ _ _
      (backup_path_ne (get_config_path isDarwin username) t).symm]
    exact hcp
  have h3 := mergeWriteStep_obj cfg (get_config_path isDarwin username) env _ d h2 hw
  rw [save_config_eq, h3]
  exact ⟨rfl, fsLookup_fsSet_self _ _ _, alookup_dictMerge_mac d cfg,
    alookup_dictMerge_machine d cfg, alookup_dictMerge_dev d cfg,
    alookup_dictMerge_sqm d cfg,
    fun k hk1 hk2 hk3 hk4 => alookup_dictMerge_other d cfg k hk1 hk2 hk3 hk4⟩

/-- C6: after a `save_config` that raised no error, `read_existing_config`
on the same path returns a set whose four field values are exactly the
values that were written. -/
theorem c6_roundtrip (cfg : StorageConfig) (isDarwin : Bool) (username : String)
    (t : Nat) (env : IOEnv) (fs : FS)
    (hok : (save_config cfg isDarwin username t env fs).err = none) :
    read_existing_config isDarwin username
        (save_config cfg isDarwin username t env fs).fs = .ok (some cfg) := by
  rw [save_config_eq] at hok ⊢
  obtain ⟨hw, d, hcase, hfs⟩ := mergeWriteStep_err_none cfg _ env _ hok
  rw [hfs]
  simp only [read_existing_config]
  rw [fsLookup_fsSet_self]
  have h1 : jGet (dictMerge d cfg.to_dict) "telemetry.macMachineId" =
      cfg.telemetry_mac_machine_id := by
    simp [jGet, alookup_dictMerge_mac]
  have h2 : jGet (dictMerge d cfg.to_dict) "telemetry.machineId" =
      cfg.telemetry_machine_id := by
    simp [jGet, alookup_dictMerge_machine]
  have h3 : jGet (dictMerge d cfg.to_dict) "telemetry.devDeviceId" =
      cfg.telemetry_dev_device_id := by
    simp [jGet, alookup_dictMerge_dev]
  have h4 : jGet (dictMerge d cfg.to_dict) "telemetry.sqmId" =
      cfg.telemetry_sqm_id := by
    simp [jGet, alookup_dictMerge_sqm]
  show Except.ok (some
    { telemetry_mac_machine_id := jGet (dictMerge d cfg.to_dict) "telemetry.macMachineId"
      telemetry_machine_id := jGet (dictMerge d cfg.to_dict) "telemetry.machineId"
      telemetry_dev_device_id := jGet (dictMerge d cfg.to_dict) "telemetry.devDeviceId"
      telemetry_sqm_id := jGet (dictMerge d cfg.to_dict) "telemetry.sqmId" }) =
    Except.ok (some cfg)
  rw [h1, h2, h3, h4]

theorem mergeWriteStep_lookup_other (config : StorageConfig) (cp : String)
    (env : IOEnv) (fs : FS) (q : String) (hq : q ≠ cp) :
    fsLookup (mergeWriteStep config cp env fs).1 q = fsLookup fs q := by
  unfold mergeWriteStep
  cases hc : fsLookup fs cp with
  | none =>
      by_cases hw : env.writeFails
      · simp [hw]
      · simp [hw, fsLookup_fsSet_ne _ _ _ _ hq]
  | some content =>
      cases content with
      | parsed v =>
          cases v with
          | jobj d =>
              by_cases hw : env.writeFails
              · simp [hw]
              · simp [hw, fsLookup_fsSet_ne _ _ _ _ hq]
          | jnull => rfl
          | jbool b => rfl
          | jnum n => rfl
          | jstr s => rfl
          | jarr l => rfl
      | malformed raw => rfl

theorem mergeWriteStep_congr (config : StorageConfig) (cp : String)
    (env1 env2 : IOEnv) (fs1 fs2 : FS)
    (henv : env1.writeFails = env2.writeFails)
    (h : fsLookup fs1 cp = fsLookup fs2 cp) :
    (mergeWriteStep config cp env1 fs1).2 = (mergeWriteStep config cp env2 fs2).2 ∧
    fsLookup (mergeWriteStep config cp env1 fs1).1 cp =
      fsLookup (mergeWriteStep config cp env2 fs2).1 cp := by
  unfold mergeWriteStep
  rw [h, henv]
  cases hc : fsLookup fs2 cp with
  | none =>
      by_cases hw : env2.writeFails
      · simp [hw, h]
      · simp [hw, fsLookup_fsSet_self]
  | some content =>
      cases content with
      | parsed v =>
          cases v with
          | jobj d =>
              by_cases hw : env2.writeFails
              · simp [hw, h]
              · simp [hw, fsLookup_fsSet_self]
          | jnull => exact ⟨rfl, h⟩
          | jbool b => exact ⟨rfl, h⟩
          | jnum n => exact ⟨rfl, h⟩
          | jstr s => exact ⟨rfl, h⟩
          | jarr l => exact ⟨rfl, h⟩
      | malformed raw => exact ⟨rfl, h⟩

/-- C4: when the target file exists, a run whose backup copy succeeds
creates exactly one new file, the backup at `<path>.<unix_time>.bak`, whose
content is the pre-save content (all paths other than the backup and the
config path are untouched); and a run whose backup copy fails creates no
backup, logs the failure, and still proceeds to the same merge-and-write
outcome as a run whose backup succeeds. -/
theorem c4_backup_behavior (cfg : StorageConfig) (isDarwin : Bool)
    (username : String) (t : Nat) (env : IOEnv) (fs : FS)
    (content : FileContent)
    (hfile : fsLookup fs (get_config_path isDarwin username) = some content) :
    (env.backupFails = false →
      fsLookup (save_config cfg isDarwin username t env fs).fs
          (get_config_path isDarwin username ++ "." ++ toString t ++ ".bak") =
        some content ∧
      ∀ q, q ≠ get_config_path isDarwin username ++ "." ++ toString t ++ ".bak" →
        q ≠ get_config_path isDarwin username →
        fsLookup (save_config cfg isDarwin username t env fs).fs q =
          fsLookup fs q) ∧
    (env.backupFails = true →
      fsLookup (save_config cfg isDarwin username t env fs).fs
          (get_config_path isDarwin username ++ "." ++ toString t ++ ".bak") =
        fsLookup fs
          (get_config_path isDarwin username ++ "." ++ toString t ++ ".bak") ∧
      "创建备份失败" ∈ (save_config cfg isDarwin username t env fs).log ∧
      (save_config cfg isDarwin username t env fs).err =
        (save_config cfg isDarwin username t ⟨false, env.writeFails⟩ fs).err ∧
      fsLookup (save_config cfg isDarwin username t env fs).fs
          (get_config_path isDarwin username) =
        fsLookup (save_config cfg isDarwin username t ⟨false, env.writeFails⟩ fs).fs
          (get_config_path isDarwin username)) := by
  have hcp : fsLookup (makedirs fs (dirname (get_config_path isDarwin username)))
      (get_config_path isDarwin username) = some content := by
    rw [fsLookup_makedirs]; exact hfile
  have hbp : fsLookup (makedirs fs (dirname (get_config_path isDarwin username)))
      (get_config_path isDarwin username ++ "." ++ toString t ++ ".bak") =
      fsLookup fs
        (get_config_path isDarwin username ++ "." ++ toString t ++ ".bak") :=
    fsLookup_makedirs _ _ _
  constructor
  · intro hb
    obtain ⟨hfs2, _⟩ := backupStep_creates (get_config_path isDarwin username) t env
      (makedirs fs (dirname (get_config_path isDarwin username))) content hcp hb
    constructor
    · rw [save_config_eq]
      show fsLookup (mergeWriteStep cfg (get_config_path isDarwin username) env
        (backupStep (get_config_path isDarwin username) t env
          (makedirs fs (dirname (get_config_path isDarwin username)))).1).1 _ = _
      rw [mergeWriteStep_lookup_other, hfs2, fsLookup_fsSet_self]
      exact backup_path_ne _ t
    · intro q hq1 hq2
      rw [save_config_eq]
      show fsLookup (mergeWriteStep cfg (get_config_path isDarwin username) env
        (backupStep (get_config_path isDarwin username) t env
          (makedirs fs (dirname (get_config_path isDarwin username)))).1).1 q = _
      rw [mergeWriteStep_lookup_other _ _ _ _ _ hq2, hfs2,
        fsLookup_fsSet_ne _ _ _ _ hq1, fsLookup_makedirs]
  · intro hb
    have hstep := backupStep_fails (get_config_path isDarwin username) t env
      (makedirs fs (dirname (get_config_path isDarwin username))) content hcp hb
    have hstep' := backupStep_creates (get_config_path isDarwin username) t
      ⟨false, env.writeFails⟩
      (makedirs fs (dirname (get_config_path isDarwin username))) content hcp rfl
    have hagree : fsLookup (makedirs fs (dirname (get_config_path isDarwin username)))
        (get_config_path isDarwin username) =
        fsLookup (fsSet (makedirs fs (dirname (get_config_path isDarwin username)))
          (get_config_path isDarwin username ++ "." ++ toString t ++ ".bak") content)
        (get_config_path isDarwin username) :=
      (fsLookup_fsSet_ne _ _ _ content
        (backup_path_ne (get_config_path isDarwin username) t).symm).symm
    have hcongr := mergeWriteStep_congr cfg (get_config_path isDarwin username)
      env ⟨false, env.writeFails⟩
      (makedirs fs (dirname (get_config_path isDarwin username)))
      (fsSet (makedirs fs (dirname (get_config_path isDarwin username)))
        (get_config_path isDarwin username ++ "." ++ toString t ++ ".bak") content)
      rfl hagree
    refine ⟨?_, ?_, ?_, ?_⟩
    · rw [save_config_eq]
      simp only [hstep]
      rw [mergeWriteStep_lookup_other _ _ _ _ _ (backup_path_ne _ t)]
      exact hbp
    · rw [save_config_eq]
      simp only [hstep]
      exact List.mem_cons_self _ _
    · rw [save_config_eq, save_config_eq]
      simp only [hstep, hstep'.1]
      exact hcongr.1
    · rw [save_config_eq, save_config_eq]
      simp only [hstep, hstep'.1]
      exact hcongr.2

/-- C9: when the target file does not exist, `save_config` creates the
parent directory chain and the file (holding the merge of the empty object
with the new set), and touches no other path — in particular no backup file
is produced. -/
theorem c9_save_creates_file (cfg : StorageConfig) (isDarwin : Bool)
    (username : String) (t : Nat) (env : IOEnv) (fs : FS)
    (habs : fsLookup fs (get_config_path isDarwin username) = none)
    (hw : env.writeFails = false) :
    (∀ dd ∈ ancestorChain (dirname (get_config_path isDarwin username)).length
        (dirname (get_config_path isDarwin username)),
      dd ∈ (save_config cfg isDarwin username t env fs).fs.dirs) ∧
    fsLookup (save_config cfg isDarwin username t env fs).fs
        (get_config_path isDarwin username) =
      some (.parsed (.jobj (dictMerge [] cfg.to_dict))) ∧
    (save_config cfg isDarwin username t env fs).err = none ∧
    ∀ q, q ≠ get_config_path isDarwin username →
      fsLookup (save_config cfg isDarwin username t env fs).fs q =
        fsLookup fs q := by
  have hcp : fsLookup (makedirs fs (dirname (get_config_path isDarwin username)))
      (get_config_path isDarwin username) = none := by
    rw [fsLookup_makedirs]; exact habs
  have hbs := backupStep_absent (get_config_path isDarwin username) t env
    (makedirs fs (dirname (get_config_path isDarwin username))) hcp
  have hmw := mergeWriteStep_absent cfg (get_config_path isDarwin username) env
    (makedirs fs (dirname (get_config_path isDarwin username))) hcp hw
  refine ⟨?_, ?_, ?_, ?_⟩
  · intro dd hdd
    rw [save_config_eq]
    simp only [hbs, hmw]
    show dd ∈ (fsSet (makedirs fs (dirname (get_config_path isDarwin username)))
      (get_config_path isDarwin username)
      (.parsed (.jobj (dictMerge [] cfg.to_dict)))).dirs
    show dd ∈ ancestorChain (dirname (get_config_path isDarwin username)).length
      (dirname (get_config_path isDarwin username)) ++ fs.dirs
    exact List.mem_append.mpr (Or.inl hdd)
  · rw [save_config_eq]
    simp only [hbs, hmw]
    exact fsLookup_fsSet_self _ _ _
  · rw [save_config_eq]
    simp only [hbs, hmw]
  · intro q hq
    rw [save_config_eq]
    simp only [hbs, hmw]
    rw [fsLookup_fsSet_ne _ _ _ _ hq, fsLookup_makedirs]

/-- Witness for C9: saving into an empty file system creates the file. -/
theorem c9_save_creates_file_witness :
    fsLookup (save_config ⟨.jstr "m", .jstr "i", .jstr "d", .jstr "s"⟩
        false "u" 0 ⟨false, false⟩ ⟨[], []⟩).fs (get_config_path false "u") =
      some (.parsed (.jobj (dictMerge []
        (StorageConfig.mk (.jstr "m") (.jstr "i") (.jstr "d") (.jstr "s")).to_dict))) :=
  (c9_save_creates_file ⟨.jstr "m", .jstr "i", .jstr "d", .jstr "s"⟩
    false "u" 0 ⟨false, false⟩ ⟨[], []⟩ rfl rfl).2.1

/-- C2 counterexample: the claim says the step-3 load yields an empty
object whenever the file is absent or unreadable at that step and does not
fail; but with an existing file whose content does not parse, `save_config`
raises `AppError(config_error, save_config, path)` from that very step
instead of proceeding with an empty object. -/
theorem c2_lenient_load_counterexample :
    (save_config ⟨.jstr "m", .jstr "i", .jstr "d", .jstr "s"⟩ false "u" 0
        ⟨false, false⟩
        ⟨[], [(get_config_path false "u", .malformed "not json")]⟩).err =
      some ⟨ERR_CONFIG, "save_config", get_config_path false "u",
        "JSONDecodeError"⟩ := by
  rfl

/-- C2 amended: during `save_config`, step 3 yields an empty object exactly
when the file is absent (merging and writing then proceed on that empty
object); when the file exists but cannot be parsed at this step, the save
fails with `AppError(config_error, save_config, path)`. -/
theorem c2_step3_load (cfg : StorageConfig) (isDarwin : Bool)
    (username : String) (t : Nat) (env : IOEnv) (fs : FS) :
    (fsLookup fs (get_config_path isDarwin username) = none →
      env.writeFails = false →
      (save_config cfg isDarwin username t env fs).err = none ∧
      fsLookup (save_config cfg isDarwin username t env fs).fs
          (get_config_path isDarwin username) =
        some (.parsed (.jobj (dictMerge [] cfg.to_dict)))) ∧
    (∀ raw, fsLookup fs (get_config_path isDarwin username) =
        some (.malformed raw) →
      (save_config cfg isDarwin username t env fs).err =
        some ⟨ERR_CONFIG, "save_config", get_config_path isDarwin username,
          "JSONDecodeError"⟩) := by
  constructor
  · intro habs hw
    have hcp : fsLookup (makedirs fs (dirname (get_config_path isDarwin username)))
        (get_config_path isDarwin username) = none := by
      rw [fsLookup_makedirs]; exact habs
    have hbs := backupStep_absent (get_config_path isDarwin username) t env
      (makedirs fs (dirname (get_config_path isDarwin username))) hcp
    have hmw := mergeWriteStep_absent cfg (get_config_path isDarwin username) env
      (makedirs fs (dirname (get_config_path isDarwin username))) hcp hw
    constructor
    · rw [save_config_eq]
      simp only [hbs, hmw]
    · rw [save_config_eq]
      simp only [hbs, hmw]
      exact fsLookup_fsSet_self _ _ _
  · intro raw hmal
    have hcp : fsLookup (makedirs fs (dirname (get_config_path isDarwin username)))
        (get_config_path isDarwin username) = some (.malformed raw) := by
      rw [fsLookup_makedirs]; exact hmal
    have h2 : fsLookup (backupStep (get_config_path isDarwin username) t env
        (makedirs fs (dirname (get_config_path isDarwin username)))).1
        (get_config_path isDarwin username) = some (.malformed raw) := by
      rw [backupStep_lookup_other _ _ _ _ _
        (backup_path_ne (get_config_path isDarwin username) t).symm]
      exact hcp
    have hmw := mergeWriteStep_malformed cfg (get_config_path isDarwin username)
      env _ raw h2
    rw [save_config_eq]
    simp only [hmw]

/-- Witness for the amended C2: saving over an absent file succeeds with
the merge of the empty object. -/
theorem c2_step3_load_witness :
    (save_config ⟨.jstr "m2", .jstr "i2", .jstr "d2", .jstr "s2"⟩
        false "u" 0 ⟨false, false⟩ ⟨[], []⟩).err = none :=
  ((c2_step3_load ⟨.jstr "m2", .jstr "i2", .jstr "d2", .jstr "s2"⟩
    false "u" 0 ⟨false, false⟩ ⟨[], []⟩).1 rfl rfl).1

/-- C3 at its failing input: the config file exists but is malformed, so
the read raises and `current_config` is never assigned; the user confirms
continuing, `main` then evaluates `new_storage_config(current_config)` on
the unbound local, and the resulting `UnboundLocalError` is caught by the
outer handler — no fresh identifier set is generated or saved and the file
system is unchanged. -/
theorem c3_read_failure_hits_unbound_local :
    mainFlow false "u" ⟨[], 0, [], [], []⟩ 0 ⟨false, false⟩ true true
        ⟨[], [(get_config_path false "u", .malformed "oops")]⟩ =
      .fatal "UnboundLocalError: cannot access local variable current_config"
        ⟨[], [(get_config_path false "u", .malformed "oops")]⟩ := by
  rfl

/-- Witness for C4: with an existing file and a succeeding backup, the
backup file appears with the pre-save content. -/
theorem c4_backup_behavior_witness :
    fsLookup (save_config ⟨.jstr "m3", .jstr "i3", .jstr "d3", .jstr "s3"⟩
        false "u" 5 ⟨false, false⟩
        ⟨[], [(get_config_path false "u", .parsed (.jobj []))]⟩).fs
        (get_config_path false "u" ++ "." ++ toString 5 ++ ".bak") =
      some (.parsed (.jobj [])) :=
  ((c4_backup_behavior ⟨.jstr "m3", .jstr "i3", .jstr "d3", .jstr "s3"⟩
    false "u" 5 ⟨false, false⟩
    ⟨[], [(get_config_path false "u", .parsed (.jobj []))]⟩
    (.parsed (.jobj [])) rfl).1 rfl).1

/-- Witness for C5: a save over an existing object file raises no error. -/
theorem c5_save_preserves_other_keys_witness :
    (save_config ⟨.jstr "m4", .jstr "i4", .jstr "d4", .jstr "s4"⟩ false "u" 0
        ⟨false, false⟩
        ⟨[], [(get_config_path false "u",
          .parsed (.jobj [("other", .jnum 1)]))]⟩).err = none :=
  (c5_save_preserves_other_keys ⟨.jstr "m4", .jstr "i4", .jstr "d4", .jstr "s4"⟩
    false "u" 0 ⟨false, false⟩
    ⟨[], [(get_config_path false "u", .parsed (.jobj [("other", .jnum 1)]))]⟩
    [("other", .jnum 1)] rfl rfl).1

/-- Witness for C6: a concrete save then read returns the written set. -/
theorem c6_roundtrip_witness :
    read_existing_config false "u"
        (save_config ⟨.jstr "m5", .jstr "i5", .jstr "d5", .jstr "s5"⟩
          false "u" 0 ⟨false, false⟩ ⟨[], []⟩).fs =
      .ok (some ⟨.jstr "m5", .jstr "i5", .jstr "d5", .jstr "s5"⟩) :=
  c6_roundtrip ⟨.jstr "m5", .jstr "i5", .jstr "d5", .jstr "s5"⟩
    false "u" 0 ⟨false, false⟩ ⟨[], []⟩ rfl

end CursorMachineId
